import Mathlib

/-!
Shallow embedding of the Arraji visa-application backend's status workflow
engine (route handlers in `src/routes/admin.js`, `src/routes/applications.js`,
`src/routes/biometrics.js`, `src/routes/payments.js`, middleware
`src/middleware/auth.js`, and the Sequelize models in `src/models/`).

Modelling conventions:
* Entity rows are Lean structures whose fields are the Sequelize model
  attributes (camelCase attribute names; each attribute is backed by the
  snake_case column given by its `field:` declaration, so a handler that
  updates by column name, e.g. `reviewed_at`, writes the same slot as the
  attribute `reviewedAt`).
* The entity store (an external collaborator per the spec) is a `DB` record
  of lists; `create` appends a row built from the handler-supplied fields and
  `update` merges the handler-supplied fields into the matching row.
* Ids are `Nat` (standing for UUIDs), instants are `Nat` (milliseconds),
  money is `Rat` (the routes accept decimal numbers).
* A handler is a pure function `DB → args → DB × Except ApiError α`; on the
  error paths of the translated handlers no mutation has happened, so the
  returned `DB` is the input one.
* Fields of the models that no translated handler reads or writes (file
  metadata, passport data, payment receipts, notification title/message
  texts, …) are omitted from the structures.
-/

namespace Arraji

/-- A user row (`src/models/User.js`). `isActive` is `Option Bool`: `none`
models a record where the attribute is `undefined`/absent, `some b` a stored
boolean. -/
structure User where
  id : Nat
  role : String
  isActive : Option Bool
  firstName : String
deriving DecidableEq

/-- An application row (`src/models/Application.js`), restricted to the
fields the translated handlers touch. `submittedAt` is the slot written by
the submit handler (`src/routes/applications.js`). -/
structure Application where
  id : Nat
  userId : Nat
  applicationNumber : String
  visaType : String
  status : String
  destinationCountry : Option String
  firstName : Option String
  lastName : Option String
  purposeOfVisit : Option String
  processingNotes : Option String
  assignedOfficerId : Option Nat
  reviewedAt : Option Nat
  approvedAt : Option Nat
  rejectedAt : Option Nat
  biometricsDate : Option Nat
  submittedAt : Option Nat
  processingFee : Rat
  biometricsFee : Rat
  serviceFee : Rat
  courierFee : Rat
  totalCost : Rat
  paymentDeadline : Option Nat
  costProvidedAt : Option Nat
deriving DecidableEq

/-- A payment row (`src/models/Payment.js`), restricted to the fields the
translated handlers touch. -/
structure Payment where
  id : Nat
  userId : Nat
  applicationId : Option Nat
  amount : Rat
  currency : String
  paymentMethod : String
  status : String
  description : Option String
  transactionId : Option String
deriving DecidableEq

/-- A biometric appointment row (`BiometricAppointment` model), restricted to
the fields the translated handlers touch. -/
structure BiometricAppointment where
  id : Nat
  userId : Nat
  applicationId : Option Nat
  appointmentDate : Nat
  location : String
  status : String
  notes : Option String
  scheduledBy : Option Nat
  completedBy : Option Nat
  completedAt : Option Nat
deriving DecidableEq

/-- A notification row (`src/models/Notification.js`). `ntype` is the model's
`type` attribute (`type` is reserved in Lean); the free-text `title` and
`message` columns are omitted. -/
structure Notification where
  userId : Nat
  applicationId : Option Nat
  ntype : String
  priority : String
  createdBy : Option Nat
deriving DecidableEq

/-- The persistent store: one list per entity. -/
structure DB where
  users : List User
  applications : List Application
  payments : List Payment
  appointments : List BiometricAppointment
  notifications : List Notification
deriving DecidableEq

/-- A typed error as produced by `AppError` in `src/middleware/errorHandler.js`
(and by the express-validator 400 responses, which we render with message
"Validation failed"). -/
structure ApiError where
  message : String
  statusCode : Nat
deriving DecidableEq

/-- `Application.findByPk` -/
def findApplication (db : DB) (id : Nat) : Option Application :=
  db.applications.find? (fun a => a.id == id)

/-- `User.findByPk` -/
def findUser (db : DB) (id : Nat) : Option User :=
  db.users.find? (fun u => u.id == id)

/-- `BiometricAppointment.findByPk` -/
def findAppointment (db : DB) (id : Nat) : Option BiometricAppointment :=
  db.appointments.find? (fun b => b.id == id)

/-- `BiometricAppointment.findOne({ where: { applicationId } })` -/
def findAppointmentByApplication (db : DB) (applicationId : Nat) : Option BiometricAppointment :=
  db.appointments.find? (fun b => b.applicationId == some applicationId)

/-- `Payment.findOne({ where: { applicationId } })` -/
def findPaymentByApplication (db : DB) (applicationId : Nat) : Option Payment :=
  db.payments.find? (fun p => p.applicationId == some applicationId)

/-- `application.update(...)` at the store level: merge `f` into the row with
the given primary key. -/
def setApplication (db : DB) (id : Nat) (f : Application → Application) : DB :=
  { db with applications := db.applications.map (fun a => if a.id == id then f a else a) }

/-- `appointment.update(...)` at the store level. -/
def setAppointment (db : DB) (id : Nat) (f : BiometricAppointment → BiometricAppointment) : DB :=
  { db with appointments := db.appointments.map (fun b => if b.id == id then f b else b) }

/-- `Notification.create(...)`: insert one notification row. -/
def pushNotification (db : DB) (n : Notification) : DB :=
  { db with notifications := db.notifications ++ [n] }

/-- A loop of `Notification.create(...)` calls: insert one row per element. -/
def pushNotifications (db : DB) (ns : List Notification) : DB :=
  { db with notifications := db.notifications ++ ns }

/-- `VALID_APPLICATION_STATUSES` from `src/routes/admin.js` (the declared
Application status enum). -/
def VALID_APPLICATION_STATUSES : List String :=
  ["draft", "submitted", "under_review", "documents_required", "biometrics_scheduled",
   "biometrics_completed", "approved", "rejected", "completed", "issued"]

/-- The `updateData` merge performed by `PUT /api/admin/applications/:id/status`
(`src/routes/admin.js`): always sets `status`; `notes` (when truthy) goes to
`processingNotes`; `assignedOfficer` (when present) to `assignedOfficerId`;
and, depending on the target status, stamps the `reviewed_at` / `approved_at`
/ `rejected_at` / `biometrics_date` columns, i.e. the `reviewedAt` /
`approvedAt` / `rejectedAt` / `biometricsDate` attributes. -/
def statusUpdateData (app : Application) (status : String) (notes : Option String)
    (assignedOfficer : Option Nat) (now : Nat) : Application :=
  { app with
    status := status
    processingNotes :=
      match notes with
      | some s => if s = "" then app.processingNotes else some s
      | none => app.processingNotes
    assignedOfficerId :=
      match assignedOfficer with
      | some o => some o
      | none => app.assignedOfficerId
    reviewedAt := if status = "under_review" then some now else app.reviewedAt
    approvedAt := if status = "approved" then some now else app.approvedAt
    rejectedAt := if status = "rejected" then some now else app.rejectedAt
    biometricsDate := if status = "biometrics_scheduled" then some now else app.biometricsDate }

/-- `PUT /api/admin/applications/:id/status` (`src/routes/admin.js`).
The route is behind `authorize('admin')`; the body validator requires
`status ∈ VALID_APPLICATION_STATUSES`.  On success it updates the
application, creates an `application_status_update` notification for the
owner, and for target `completed`/`issued` loads the owner and creates an
additional high-priority `farewell` notification (if the owner row is
missing, the farewell message construction dereferences `null` and the
request fails with a 500 after the earlier mutations). -/
def adminUpdateApplicationStatus (db : DB) (admin : User) (id : Nat) (status : String)
    (notes : Option String) (assignedOfficer : Option Nat) (now : Nat) :
    DB × Except ApiError Unit :=
  if admin.role ≠ "admin" then
    (db, .error { message := "User role " ++ admin.role ++ " is not authorized to access this route",
                  statusCode := 403 })
  else if status ∉ VALID_APPLICATION_STATUSES then
    (db, .error { message := "Validation failed", statusCode := 400 })
  else
    match findApplication db id with
    | none => (db, .error { message := "Application not found", statusCode := 404 })
    | some app =>
      let db1 := setApplication db id (fun a => statusUpdateData a status notes assignedOfficer now)
      let db2 := pushNotification db1
        { userId := app.userId, applicationId := some id, ntype := "application_status_update",
          priority := "medium", createdBy := some admin.id }
      if status = "completed" ∨ status = "issued" then
        match findUser db2 app.userId with
        | none => (db2, .error { message := "Server Error", statusCode := 500 })
        | some _owner =>
          (pushNotification db2
            { userId := app.userId, applicationId := some id, ntype := "farewell",
              priority := "high", createdBy := some admin.id }, .ok ())
      else
        (db2, .ok ())

/-- `PUT /api/applications/:id/submit` (`src/routes/applications.js`).
Behind `protect`; checks ownership, then the draft precondition, then sets
`status = 'submitted'` and `submittedAt = now` and creates one
`application_status_update` notification per admin user with
`isActive: true`. -/
def submitApplication (db : DB) (callerId : Nat) (id : Nat) (now : Nat) :
    DB × Except ApiError Unit :=
  match findApplication db id with
  | none => (db, .error { message := "Application not found", statusCode := 404 })
  | some app =>
    if app.userId ≠ callerId then
      (db, .error { message := "Not authorized to submit this application", statusCode := 403 })
    else if app.status ≠ "draft" then
      (db, .error { message := "Only draft applications can be submitted", statusCode := 400 })
    else
      let db1 := setApplication db id (fun a => { a with status := "submitted", submittedAt := some now })
      let adminUsers := db1.users.filter (fun u => u.role == "admin" && u.isActive == some true)
      let db2 := pushNotifications db1 (adminUsers.map (fun a =>
        { userId := a.id, applicationId := some id, ntype := "application_status_update",
          priority := "high", createdBy := some callerId }))
      (db2, .ok ())

/-- The `req.body` of `PUT /api/applications/:id`, restricted to a
representative set of Application attributes (the handler merges the body
verbatim via `application.update(req.body)`; `none` is an absent key). -/
structure ApplicationPatch where
  status : Option String
  destinationCountry : Option String
  firstName : Option String
  lastName : Option String
  purposeOfVisit : Option String
deriving DecidableEq

/-- `application.update(req.body)`: keys present in the body replace the
row's fields. -/
def applyPatch (app : Application) (p : ApplicationPatch) : Application :=
  { app with
    status := p.status.getD app.status
    destinationCountry :=
      match p.destinationCountry with
      | some d => some d
      | none => app.destinationCountry
    firstName :=
      match p.firstName with
      | some f => some f
      | none => app.firstName
    lastName :=
      match p.lastName with
      | some l => some l
      | none => app.lastName
    purposeOfVisit :=
      match p.purposeOfVisit with
      | some q => some q
      | none => app.purposeOfVisit }

/-- `PUT /api/applications/:id` (`src/routes/applications.js`): checks
ownership first (403 for any non-owner, staff included), then the draft
precondition — which admin/officer callers bypass — and merges the body. -/
def updateApplicationFields (db : DB) (caller : User) (id : Nat) (patch : ApplicationPatch) :
    DB × Except ApiError Unit :=
  match findApplication db id with
  | none => (db, .error { message := "Application not found", statusCode := 404 })
  | some app =>
    if app.userId ≠ caller.id then
      (db, .error { message := "Not authorized to update this application", statusCode := 403 })
    else if app.status ≠ "draft" ∧ caller.role ∉ (["admin", "officer"] : List String) then
      (db, .error { message := "Cannot update application after submission", statusCode := 400 })
    else
      (setApplication db id (fun a => applyPatch a patch), .ok ())

/-- `POST /api/admin/application/:id/send-cost-estimation`
(`src/routes/admin.js`).  Behind `authorize('admin')`; the validators require
each supplied fee and the total to be a nonnegative number.  Absent fields
default to `processingFee = 120`, `biometricsFee = 50`, `serviceFee = 30`,
`courierFee = 25`, `total = 225`; an absent `paymentDeadline` defaults to
`now + 3` days.  The caller-supplied `total` is stored as `totalCost`
verbatim (no recomputation from the components).  Re-sending while the
status is already `cost_provided` is a 400 conflict. -/
def sendCostEstimation (db : DB) (admin : User) (id : Nat)
    (processingFee biometricsFee serviceFee courierFee total : Option Rat)
    (paymentDeadline : Option Nat) (now : Nat) : DB × Except ApiError Unit :=
  if admin.role ≠ "admin" then
    (db, .error { message := "User role " ++ admin.role ++ " is not authorized to access this route",
                  statusCode := 403 })
  else if ¬ ((∀ x ∈ processingFee, 0 ≤ x) ∧ (∀ x ∈ biometricsFee, 0 ≤ x) ∧
             (∀ x ∈ serviceFee, 0 ≤ x) ∧ (∀ x ∈ courierFee, 0 ≤ x) ∧ (∀ x ∈ total, 0 ≤ x)) then
    (db, .error { message := "Validation failed", statusCode := 400 })
  else
    match findApplication db id with
    | none => (db, .error { message := "Application not found", statusCode := 404 })
    | some app =>
      if app.status = "cost_provided" then
        (db, .error { message := "Cost estimation has already been sent for this application",
                      statusCode := 400 })
      else
        let deadline := paymentDeadline.getD (now + 3 * 24 * 60 * 60 * 1000)
        let db1 := setApplication db id (fun a =>
          { a with
            status := "cost_provided"
            processingFee := processingFee.getD 120
            biometricsFee := biometricsFee.getD 50
            serviceFee := serviceFee.getD 30
            courierFee := courierFee.getD 25
            totalCost := total.getD 225
            paymentDeadline := some deadline
            costProvidedAt := some now })
        (pushNotification db1
          { userId := app.userId, applicationId := some id, ntype := "cost",
            priority := "high", createdBy := some admin.id }, .ok ())

/-- `POST /api/biometrics` (`src/routes/biometrics.js`).  Behind
`authorize('admin', 'officer')`; the validators require a nonempty location
and at most 500 characters of notes.  Scheduling is rejected when an
appointment already exists for the application; otherwise it creates the
appointment (`status = 'scheduled'`), sets the application status to
`biometrics_scheduled` and notifies the owner. -/
def scheduleBiometricAppointment (db : DB) (staff : User) (newId : Nat)
    (applicationId : Nat) (appointmentDate : Nat) (location : String)
    (notes : Option String) : DB × Except ApiError Unit :=
  if staff.role ≠ "admin" ∧ staff.role ≠ "officer" then
    (db, .error { message := "User role " ++ staff.role ++ " is not authorized to access this route",
                  statusCode := 403 })
  else if location = "" ∨ (notes.getD "").length > 500 then
    (db, .error { message := "Validation failed", statusCode := 400 })
  else
    match findApplication db applicationId with
    | none => (db, .error { message := "Application not found", statusCode := 404 })
    | some app =>
      match findAppointmentByApplication db applicationId with
      | some _existing =>
        (db, .error { message := "Biometric appointment already scheduled for this application",
                      statusCode := 400 })
      | none =>
        let appt : BiometricAppointment :=
          { id := newId, userId := app.userId, applicationId := some applicationId,
            appointmentDate := appointmentDate, location := location, status := "scheduled",
            notes := notes, scheduledBy := some staff.id, completedBy := none, completedAt := none }
        let db1 := { db with appointments := db.appointments ++ [appt] }
        let db2 := setApplication db1 applicationId (fun a => { a with status := "biometrics_scheduled" })
        (pushNotification db2
          { userId := app.userId, applicationId := some applicationId, ntype := "biometric_scheduled",
            priority := "high", createdBy := some staff.id }, .ok ())

/-- The status values accepted by the biometric status validator. -/
def VALID_BIOMETRIC_STATUSES : List String :=
  ["scheduled", "completed", "cancelled", "rescheduled", "no_show"]

/-- The `updateData` merge performed by `PUT /api/biometrics/:id/status`:
always sets `status`, merges truthy `notes`, and stamps
`completedBy`/`completedAt` when moving into `completed` from an appointment
whose status (`apptStatus`) was not already `completed`. -/
def biometricUpdateData (b : BiometricAppointment) (status : String) (notes : Option String)
    (apptStatus : String) (staffId now : Nat) : BiometricAppointment :=
  { b with
    status := status
    notes :=
      match notes with
      | some s => if s = "" then b.notes else some s
      | none => b.notes
    completedBy :=
      if status = "completed" ∧ apptStatus ≠ "completed" then some staffId
      else b.completedBy
    completedAt :=
      if status = "completed" ∧ apptStatus ≠ "completed" then some now
      else b.completedAt }

/-- `PUT /api/biometrics/:id/status` (`src/routes/biometrics.js`).  Behind
`authorize('admin', 'officer')`.  Updates the appointment (stamping
`completedBy`/`completedAt` when moving into `completed` from a
non-`completed` state), then cascades into the linked application:
`completed ⇒ biometrics_completed`, `cancelled ⇒ documents_requested`. -/
def updateBiometricStatus (db : DB) (staff : User) (apptId : Nat) (status : String)
    (notes : Option String) (now : Nat) : DB × Except ApiError Unit :=
  if staff.role ≠ "admin" ∧ staff.role ≠ "officer" then
    (db, .error { message := "User role " ++ staff.role ++ " is not authorized to access this route",
                  statusCode := 403 })
  else if status ∉ VALID_BIOMETRIC_STATUSES ∨ (notes.getD "").length > 500 then
    (db, .error { message := "Validation failed", statusCode := 400 })
  else
    match findAppointment db apptId with
    | none => (db, .error { message := "Appointment not found", statusCode := 404 })
    | some appt =>
      let db1 := setAppointment db apptId (fun b =>
        biometricUpdateData b status notes appt.status staff.id now)
      let db2 :=
        match appt.applicationId with
        | some appId =>
          match findApplication db appId with
          | some _app =>
            if status = "completed" then
              setApplication db1 appId (fun a => { a with status := "biometrics_completed" })
            else if status = "cancelled" then
              setApplication db1 appId (fun a => { a with status := "documents_requested" })
            else db1
          | none => db1
        | none => db1
      (db2, .ok ())

/-- Currencies accepted by the payment validator. -/
def PAYMENT_CURRENCIES : List String := ["USD", "EUR", "GBP", "AED", "CAD", "AUD"]

/-- Payment methods accepted by the payment validator. -/
def PAYMENT_METHODS : List String :=
  ["credit_card", "debit_card", "bank_transfer", "paypal", "cash"]

/-- `POST /api/payments` (`src/routes/payments.js`).  Behind `protect`; the
validators require a nonnegative amount, enumerated currency/method, and at
most 500 characters of description.  The application must exist AND belong to
the caller (a single `findOne` with both conditions; otherwise 404); a
pre-create existence check rejects a second payment for the same application;
otherwise one `pending` payment row is created. -/
def createPayment (db : DB) (callerId : Nat) (newId : Nat) (applicationId : Nat)
    (amount : Rat) (currency : String) (paymentMethod : String)
    (description : Option String) (transactionId : Option String) :
    DB × Except ApiError Unit :=
  if ¬ (0 ≤ amount ∧ currency ∈ PAYMENT_CURRENCIES ∧ paymentMethod ∈ PAYMENT_METHODS ∧
        (description.getD "").length ≤ 500) then
    (db, .error { message := "Validation failed", statusCode := 400 })
  else
    match db.applications.find? (fun a => a.id == applicationId && a.userId == callerId) with
    | none => (db, .error { message := "Application not found", statusCode := 404 })
    | some app =>
      match findPaymentByApplication db applicationId with
      | some _existing =>
        (db, .error { message := "Payment already exists for this application", statusCode := 400 })
      | none =>
        let payment : Payment :=
          { id := newId, userId := callerId, applicationId := some applicationId,
            amount := amount, currency := currency, paymentMethod := paymentMethod,
            status := "pending",
            description := some
              (match description with
               | some s => if s = "" then "Payment for " ++ app.visaType ++ " visa application" else s
               | none => "Payment for " ++ app.visaType ++ " visa application"),
            transactionId := transactionId }
        ({ db with payments := db.payments ++ [payment] }, .ok ())

/-- The user-loading tail of the `protect` middleware (`src/middleware/auth.js`)
after the token has been verified: `None` models `User.findByPk` returning no
row; the active-account gate admits a user whose `isActive` is `undefined` or
`true` and rejects everything else with a 401. -/
def protectLoadedUser (user : Option User) : Except ApiError User :=
  match user with
  | none => .error { message := "No user found with this token", statusCode := 401 }
  | some u =>
    if u.isActive = none ∨ u.isActive = some true then .ok u
    else .error { message := "User account is deactivated", statusCode := 401 }

/-! Concrete fixtures used to instantiate the theorems below. -/

/-- Fixture: an active admin. -/
def adminUser : User := { id := 99, role := "admin", isActive := some true, firstName := "Alice" }

/-- Fixture: an active officer. -/
def officerUser : User := { id := 7, role := "officer", isActive := some true, firstName := "Omar" }

/-- Fixture: the applicant owning the fixture applications. -/
def ownerUser : User := { id := 10, role := "user", isActive := some true, firstName := "Ada" }

/-- Fixture: a deactivated admin (excluded from the submit fan-out). -/
def inactiveAdmin : User := { id := 5, role := "admin", isActive := some false, firstName := "Ines" }

/-- Fixture: a user whose `isActive` attribute is absent. -/
def undefActiveUser : User := { id := 12, role := "user", isActive := none, firstName := "Uma" }

/-- Fixture: an application row with empty optional fields. -/
def baseApplication : Application :=
  { id := 0, userId := 10, applicationNumber := "VISA-1700000000000-1", visaType := "tourist",
    status := "draft", destinationCountry := none, firstName := none, lastName := none,
    purposeOfVisit := none, processingNotes := none, assignedOfficerId := none,
    reviewedAt := none, approvedAt := none, rejectedAt := none, biometricsDate := none,
    submittedAt := none, processingFee := 0, biometricsFee := 0, serviceFee := 0,
    courierFee := 0, totalCost := 0, paymentDeadline := none, costProvidedAt := none }

/-- Fixture: an approved application. -/
def approvedApp : Application := { baseApplication with id := 1, status := "approved" }

/-- Fixture: a draft application. -/
def draftApp : Application := { baseApplication with id := 2, status := "draft" }

/-- Fixture: a submitted application. -/
def submittedApp : Application := { baseApplication with id := 3, status := "submitted" }

/-- Fixture: an application whose biometrics are scheduled. -/
def bioApp : Application := { baseApplication with id := 4, status := "biometrics_scheduled" }

/-- Fixture: an application under review that already has a payment row. -/
def paidApp : Application := { baseApplication with id := 6, status := "under_review" }

/-- Fixture: the scheduled appointment of `bioApp`. -/
def sampleAppointment : BiometricAppointment :=
  { id := 1, userId := 10, applicationId := some 4, appointmentDate := 500,
    location := "Dubai Main Center", status := "scheduled", notes := none,
    scheduledBy := some 99, completedBy := none, completedAt := none }

/-- Fixture: the pending payment of `paidApp`. -/
def samplePayment : Payment :=
  { id := 1, userId := 10, applicationId := some 6, amount := 225, currency := "USD",
    paymentMethod := "credit_card", status := "pending", description := none,
    transactionId := none }

/-- Fixture: the store holding the rows above. -/
def sampleDB : DB :=
  { users := [adminUser, officerUser, ownerUser, inactiveAdmin],
    applications := [approvedApp, draftApp, submittedApp, bioApp, paidApp],
    payments := [samplePayment],
    appointments := [sampleAppointment],
    notifications := [] }

/-- Fixture: a request body with no keys. -/
def emptyPatch : ApplicationPatch :=
  { status := none, destinationCountry := none, firstName := none, lastName := none,
    purposeOfVisit := none }

/-! Store-level lemmas. -/

/-- Updating the row with a key-preserving function commutes with lookup. -/
theorem find?_map_ite {α : Type} (p : α → Bool) (f : α → α) (hp : ∀ a, p (f a) = p a) :
    ∀ l : List α, (l.map (fun a => if p a then f a else a)).find? p = (l.find? p).map f := by
  intro l
  induction l with
  | nil => rfl
  | cons a t ih =>
    by_cases h : p a = true
    · rw [List.map_cons, if_pos h, List.find?_cons_of_pos _ (by rw [hp]; exact h),
        List.find?_cons_of_pos _ h]
      rfl
    · rw [List.map_cons, if_neg h, List.find?_cons_of_neg _ h, List.find?_cons_of_neg _ h, ih]

@[simp]
theorem findApplication_setApplication (db : DB) (id : Nat) (f : Application → Application)
    (hf : ∀ a, (f a).id = a.id) :
    findApplication (setApplication db id f) id = (findApplication db id).map f :=
  find?_map_ite _ f (fun a => by rw [hf]) db.applications

@[simp]
theorem findAppointment_setAppointment (db : DB) (id : Nat)
    (f : BiometricAppointment → BiometricAppointment) (hf : ∀ b, (f b).id = b.id) :
    findAppointment (setAppointment db id f) id = (findAppointment db id).map f :=
  find?_map_ite _ f (fun b => by rw [hf]) db.appointments

@[simp]
theorem findApplication_pushNotification (db : DB) (n : Notification) (id : Nat) :
    findApplication (pushNotification db n) id = findApplication db id := rfl

@[simp]
theorem findApplication_pushNotifications (db : DB) (ns : List Notification) (id : Nat) :
    findApplication (pushNotifications db ns) id = findApplication db id := rfl

@[simp]
theorem notifications_pushNotifications (db : DB) (ns : List Notification) :
    (pushNotifications db ns).notifications = db.notifications ++ ns := rfl

@[simp]
theorem findUser_pushNotification (db : DB) (n : Notification) (id : Nat) :
    findUser (pushNotification db n) id = findUser db id := rfl

@[simp]
theorem findUser_setApplication (db : DB) (i : Nat) (f : Application → Application) (id : Nat) :
    findUser (setApplication db i f) id = findUser db id := rfl

@[simp]
theorem findApplication_setAppointment (db : DB) (i : Nat)
    (f : BiometricAppointment → BiometricAppointment) (id : Nat) :
    findApplication (setAppointment db i f) id = findApplication db id := rfl

@[simp]
theorem findAppointment_setApplication (db : DB) (i : Nat)
    (f : Application → Application) (id : Nat) :
    findAppointment (setApplication db i f) id = findAppointment db id := rfl

@[simp]
theorem notifications_setApplication (db : DB) (i : Nat) (f : Application → Application) :
    (setApplication db i f).notifications = db.notifications := rfl

@[simp]
theorem notifications_pushNotification (db : DB) (n : Notification) :
    (pushNotification db n).notifications = db.notifications ++ [n] := rfl

@[simp]
theorem users_setApplication (db : DB) (i : Nat) (f : Application → Application) :
    (setApplication db i f).users = db.users := rfl

@[simp]
theorem statusUpdateData_id (app : Application) (s : String) (n : Option String)
    (o : Option Nat) (t : Nat) : (statusUpdateData app s n o t).id = app.id := rfl

/-- Successful admin status updates replace the stored row by the
`statusUpdateData` merge, whatever the target status is. -/
theorem adminUpdate_find (db : DB) (admin : User) (id : Nat) (status : String)
    (notes : Option String) (officer : Option Nat) (now : Nat) (app : Application)
    (hrole : admin.role = "admin") (hv : status ∈ VALID_APPLICATION_STATUSES)
    (happ : findApplication db id = some app) :
    findApplication (adminUpdateApplicationStatus db admin id status notes officer now).1 id
      = some (statusUpdateData app status notes officer now) := by
  unfold adminUpdateApplicationStatus
  rw [if_neg (not_not_intro hrole), if_neg (not_not_intro hv), happ]
  dsimp only
  by_cases h : status = "completed" ∨ status = "issued"
  · rw [if_pos h]
    cases findUser (pushNotification (setApplication db id
        (fun a => statusUpdateData a status notes officer now))
        { userId := app.userId, applicationId := some id, ntype := "application_status_update",
          priority := "medium", createdBy := some admin.id }) app.userId with
    | none => simp [happ]
    | some owner => simp [happ]
  · rw [if_neg h]
    simp [happ]

/-- Claim C1, counterexample: on the fixture store the application with id 1
has status `approved`, yet the admin status update with target `draft` (an
edge the spec declares illegal) succeeds and stores status `draft` — it is
neither rejected nor does it leave the status unchanged. -/
theorem C1_counterexample :
    findApplication sampleDB 1 = some approvedApp
    ∧ approvedApp.status = "approved"
    ∧ (adminUpdateApplicationStatus sampleDB adminUser 1 "draft" none none 1000).2 = .ok ()
    ∧ ∃ app2,
        findApplication (adminUpdateApplicationStatus sampleDB adminUser 1 "draft" none none 1000).1 1
          = some app2 ∧ app2.status = "draft" := by
  exact ⟨rfl, rfl, rfl, ⟨_, rfl, rfl⟩⟩

/-- Claim C1 (amended): the admin status endpoint gates the target status only
on membership in the declared status list `VALID_APPLICATION_STATUSES`: a
target outside the list is rejected with a 400 validation error and the store
(in particular the status) is unchanged, while any listed target is accepted
regardless of the current status and the stored status becomes the target —
the current status is never consulted, so `approved → draft` succeeds. -/
theorem C1_status_enum_gate (db : DB) (admin : User) (id : Nat) (status : String)
    (notes : Option String) (officer : Option Nat) (now : Nat)
    (hrole : admin.role = "admin") :
    (status ∉ VALID_APPLICATION_STATUSES →
      adminUpdateApplicationStatus db admin id status notes officer now
        = (db, .error { message := "Validation failed", statusCode := 400 }))
    ∧ (status ∈ VALID_APPLICATION_STATUSES → ∀ app, findApplication db id = some app →
        ∃ app2,
          findApplication (adminUpdateApplicationStatus db admin id status notes officer now).1 id
            = some app2 ∧ app2.status = status) := by
  constructor
  · intro h
    unfold adminUpdateApplicationStatus
    rw [if_neg (not_not_intro hrole), if_pos h]
  · intro hv app happ
    exact ⟨_, adminUpdate_find db admin id status notes officer now app hrole hv happ, rfl⟩

/-- Witness for C1: on the fixture store, target `embassy_submitted` (outside
the declared list) is rejected with a validation error, while target `draft`
on the approved application succeeds and stores `draft`. -/
theorem C1_witness :
    adminUpdateApplicationStatus sampleDB adminUser 1 "embassy_submitted" none none 7
      = (sampleDB, .error { message := "Validation failed", statusCode := 400 })
    ∧ ∃ app2,
        findApplication (adminUpdateApplicationStatus sampleDB adminUser 1 "draft" none none 7).1 1
          = some app2 ∧ app2.status = "draft" := by
  exact ⟨(C1_status_enum_gate sampleDB adminUser 1 "embassy_submitted" none none 7 rfl).1 (by decide),
    (C1_status_enum_gate sampleDB adminUser 1 "draft" none none 7 rfl).2 (by decide) approvedApp rfl⟩

/-- Claim C2: a successful admin status update stamps the timestamp matching
the target status — `reviewedAt` for `under_review`, `approvedAt` for
`approved`, `rejectedAt` for `rejected`, and `biometricsDate` for
`biometrics_scheduled` — with the time of the update. -/
theorem C2_status_timestamps (db : DB) (admin : User) (id : Nat) (status : String)
    (notes : Option String) (officer : Option Nat) (now : Nat) (app : Application)
    (hrole : admin.role = "admin") (hv : status ∈ VALID_APPLICATION_STATUSES)
    (happ : findApplication db id = some app) :
    ∃ app2,
      findApplication (adminUpdateApplicationStatus db admin id status notes officer now).1 id
        = some app2
      ∧ (status = "under_review" → app2.reviewedAt = some now)
      ∧ (status = "approved" → app2.approvedAt = some now)
      ∧ (status = "rejected" → app2.rejectedAt = some now)
      ∧ (status = "biometrics_scheduled" → app2.biometricsDate = some now) := by
  refine ⟨_, adminUpdate_find db admin id status notes officer now app hrole hv happ,
    ?_, ?_, ?_, ?_⟩ <;> intro h <;> subst h <;> simp [statusUpdateData]

/-- Witness for C2: setting the submitted fixture application to `approved`
at time 42 stores `approvedAt = 42`. -/
theorem C2_witness :
    ∃ app2,
      findApplication (adminUpdateApplicationStatus sampleDB adminUser 3 "approved" none none 42).1 3
        = some app2 ∧ app2.approvedAt = some 42 := by
  obtain ⟨app2, hfind, _, happr, _, _⟩ :=
    C2_status_timestamps sampleDB adminUser 3 "approved" none none 42 submittedApp rfl (by decide) rfl
  exact ⟨app2, hfind, happr rfl⟩

/-- Claim C6: a successful admin status update with target `completed` or
`issued` (and an existing owner row) appends exactly two notifications — one
`application_status_update` and one high-priority `farewell`, both addressed
to the owner; with any other target it appends exactly one
`application_status_update` notification to the owner and no farewell. -/
theorem C6_notification_fanout (db : DB) (admin : User) (id : Nat) (status : String)
    (notes : Option String) (officer : Option Nat) (now : Nat) (app : Application)
    (hrole : admin.role = "admin") (hv : status ∈ VALID_APPLICATION_STATUSES)
    (happ : findApplication db id = some app) :
    ((status = "completed" ∨ status = "issued") →
      (∃ owner, findUser db app.userId = some owner) →
      ∃ s f,
        (adminUpdateApplicationStatus db admin id status notes officer now).1.notifications
          = db.notifications ++ [s, f]
        ∧ s.userId = app.userId ∧ s.ntype = "application_status_update"
        ∧ f.userId = app.userId ∧ f.ntype = "farewell" ∧ f.priority = "high")
    ∧ (¬ (status = "completed" ∨ status = "issued") →
      ∃ s,
        (adminUpdateApplicationStatus db admin id status notes officer now).1.notifications
          = db.notifications ++ [s]
        ∧ s.userId = app.userId ∧ s.ntype = "application_status_update"
        ∧ s.ntype ≠ "farewell") := by
  constructor
  · rintro h ⟨owner, howner⟩
    unfold adminUpdateApplicationStatus
    rw [if_neg (not_not_intro hrole), if_neg (not_not_intro hv), happ]
    dsimp only
    rw [if_pos h]
    simp only [findUser_pushNotification, findUser_setApplication]
    rw [howner]
    dsimp only
    refine ⟨⟨app.userId, some id, "application_status_update", "medium", some admin.id⟩,
      ⟨app.userId, some id, "farewell", "high", some admin.id⟩, ?_, rfl, rfl, rfl, rfl, rfl⟩
    simp
  · intro h
    unfold adminUpdateApplicationStatus
    rw [if_neg (not_not_intro hrole), if_neg (not_not_intro hv), happ]
    dsimp only
    rw [if_neg h]
    refine ⟨⟨app.userId, some id, "application_status_update", "medium", some admin.id⟩,
      ?_, rfl, rfl, by simp⟩
    simp

/-- Witness for C6: completing the submitted fixture application appends the
status-update and farewell pair; approving it appends only the status-update
notification. -/
theorem C6_witness :
    (∃ s f,
      (adminUpdateApplicationStatus sampleDB adminUser 3 "completed" none none 50).1.notifications
        = sampleDB.notifications ++ [s, f]
      ∧ s.userId = submittedApp.userId ∧ s.ntype = "application_status_update"
      ∧ f.userId = submittedApp.userId ∧ f.ntype = "farewell" ∧ f.priority = "high")
    ∧ (∃ s,
      (adminUpdateApplicationStatus sampleDB adminUser 3 "approved" none none 50).1.notifications
        = sampleDB.notifications ++ [s]
      ∧ s.userId = submittedApp.userId ∧ s.ntype = "application_status_update"
      ∧ s.ntype ≠ "farewell") := by
  exact ⟨(C6_notification_fanout sampleDB adminUser 3 "completed" none none 50 submittedApp rfl
      (by decide) rfl).1 (Or.inl rfl) ⟨ownerUser, rfl⟩,
    (C6_notification_fanout sampleDB adminUser 3 "approved" none none 50 submittedApp rfl
      (by decide) rfl).2 (by decide)⟩

/-- Claim C3, counterexample: an admin who does not own the draft application
with id 2 (owned by user 10) calls the field update; contrary to the claim
the staff call does not succeed — it is rejected with a 403 authorization
error and the store is unchanged. -/
theorem C3_counterexample :
    updateApplicationFields sampleDB adminUser 2 emptyPatch
      = (sampleDB, .error { message := "Not authorized to update this application",
                            statusCode := 403 }) := by
  rfl

/-- Claim C3 (amended): the field update requires the caller to be the owner —
any non-owner, staff included, receives a 403 authorization error and nothing
changes.  For the owner, the update is permitted when the application is in
`draft` or the owner's own role is admin/officer (the staff role bypasses only
the draft precondition, not ownership); on success the supplied fields are
merged and the status is unchanged when the body carries no status key. -/
theorem C3_update_auth (db : DB) (caller : User) (id : Nat) (patch : ApplicationPatch)
    (app : Application) (happ : findApplication db id = some app) :
    (app.userId ≠ caller.id →
      updateApplicationFields db caller id patch
        = (db, .error { message := "Not authorized to update this application",
                        statusCode := 403 }))
    ∧ (app.userId = caller.id → app.status ≠ "draft" →
        caller.role ∉ (["admin", "officer"] : List String) →
      updateApplicationFields db caller id patch
        = (db, .error { message := "Cannot update application after submission",
                        statusCode := 400 }))
    ∧ (app.userId = caller.id →
        (app.status = "draft" ∨ caller.role ∈ (["admin", "officer"] : List String)) →
      (updateApplicationFields db caller id patch).2 = .ok ()
      ∧ ∃ app2, findApplication (updateApplicationFields db caller id patch).1 id = some app2
        ∧ app2 = applyPatch app patch
        ∧ (patch.status = none → app2.status = app.status)) := by
  refine ⟨?_, ?_, ?_⟩
  · intro h
    unfold updateApplicationFields
    rw [happ]
    dsimp only
    rw [if_pos h]
  · intro h1 h2 h3
    unfold updateApplicationFields
    rw [happ]
    dsimp only
    rw [if_neg (not_not_intro h1), if_pos ⟨h2, h3⟩]
  · intro h1 h2
    unfold updateApplicationFields
    rw [happ]
    dsimp only
    rw [if_neg (not_not_intro h1), if_neg (by
      rintro ⟨hnd, hnr⟩
      rcases h2 with hd | hr
      · exact hnd hd
      · exact hnr hr)]
    dsimp only
    refine ⟨rfl, applyPatch app patch, ?_, rfl, ?_⟩
    · rw [findApplication_setApplication db id (fun a => applyPatch a patch) (fun a => rfl), happ]
      rfl
    · intro hnone
      simp [applyPatch, hnone]

/-- Witness for C3: the owner is refused on the submitted application (400),
and succeeds on the draft application with the status left `draft`. -/
theorem C3_witness :
    updateApplicationFields sampleDB ownerUser 3 emptyPatch
      = (sampleDB, .error { message := "Cannot update application after submission",
                            statusCode := 400 })
    ∧ ((updateApplicationFields sampleDB ownerUser 2 emptyPatch).2 = .ok ()
      ∧ ∃ app2, findApplication (updateApplicationFields sampleDB ownerUser 2 emptyPatch).1 2
          = some app2
        ∧ app2 = applyPatch draftApp emptyPatch
        ∧ (emptyPatch.status = none → app2.status = draftApp.status)) := by
  exact ⟨(C3_update_auth sampleDB ownerUser 3 emptyPatch submittedApp rfl).2.1 rfl
      (by decide) (by decide),
    (C3_update_auth sampleDB ownerUser 2 emptyPatch draftApp rfl).2.2 rfl (Or.inl rfl)⟩

/-- Claim C7: submit succeeds exactly for the owner of a draft application —
a non-owner gets a 403 and a non-draft application a 400, in both cases with
the store unchanged; on success the status becomes `submitted`, `submittedAt`
is stamped with the current time, and one `application_status_update`
notification is created per admin user whose `isActive` is `true`. -/
theorem C7_submit (db : DB) (callerId id now : Nat) (app : Application)
    (happ : findApplication db id = some app) :
    (app.userId ≠ callerId →
      submitApplication db callerId id now
        = (db, .error { message := "Not authorized to submit this application",
                        statusCode := 403 }))
    ∧ (app.userId = callerId → app.status ≠ "draft" →
      submitApplication db callerId id now
        = (db, .error { message := "Only draft applications can be submitted",
                        statusCode := 400 }))
    ∧ (app.userId = callerId → app.status = "draft" →
      (submitApplication db callerId id now).2 = .ok ()
      ∧ (∃ app2, findApplication (submitApplication db callerId id now).1 id = some app2
          ∧ app2.status = "submitted" ∧ app2.submittedAt = some now)
      ∧ ∃ ns, (submitApplication db callerId id now).1.notifications = db.notifications ++ ns
          ∧ ns.map (fun n => n.userId)
              = (db.users.filter (fun u => u.role == "admin" && u.isActive == some true)).map
                  (fun u => u.id)
          ∧ ∀ n ∈ ns, n.ntype = "application_status_update") := by
  refine ⟨?_, ?_, ?_⟩
  · intro h
    unfold submitApplication
    rw [happ]
    dsimp only
    rw [if_pos h]
  · intro h1 h2
    unfold submitApplication
    rw [happ]
    dsimp only
    rw [if_neg (not_not_intro h1), if_pos h2]
  · intro h1 h2
    unfold submitApplication
    rw [happ]
    dsimp only
    rw [if_neg (not_not_intro h1), if_neg (not_not_intro h2)]
    dsimp only
    refine ⟨rfl, ⟨{ app with status := "submitted", submittedAt := some now }, ?_, rfl, rfl⟩,
      _, rfl, ?_, ?_⟩
    · rw [findApplication_pushNotifications,
        findApplication_setApplication db id
          (fun a => { a with status := "submitted", submittedAt := some now }) (fun a => rfl), happ]
      rfl
    · rw [List.map_map]
      rfl
    · intro n hn
      simp only [List.mem_map] at hn
      obtain ⟨u, _, rfl⟩ := hn
      rfl

/-- Witness for C7: a stranger (id 55) cannot submit application 2; the owner
(id 10) submits it, the stored status becomes `submitted` with
`submittedAt = 77`, and the single active admin (id 99) is notified. -/
theorem C7_witness :
    submitApplication sampleDB 55 2 77
      = (sampleDB, .error { message := "Not authorized to submit this application",
                            statusCode := 403 })
    ∧ ((submitApplication sampleDB 10 2 77).2 = .ok ()
      ∧ (∃ app2, findApplication (submitApplication sampleDB 10 2 77).1 2 = some app2
          ∧ app2.status = "submitted" ∧ app2.submittedAt = some 77)
      ∧ ∃ ns, (submitApplication sampleDB 10 2 77).1.notifications = sampleDB.notifications ++ ns
          ∧ ns.map (fun n => n.userId)
              = (sampleDB.users.filter (fun u => u.role == "admin" && u.isActive == some true)).map
                  (fun u => u.id)
          ∧ ∀ n ∈ ns, n.ntype = "application_status_update") := by
  exact ⟨(C7_submit sampleDB 55 2 77 draftApp rfl).1 (by decide),
    (C7_submit sampleDB 10 2 77 draftApp rfl).2.2 rfl rfl⟩

/-- A supplied fee component satisfies the nonnegativity validator. -/
theorem forallFee_some {q : Rat} (h : 0 ≤ q) : ∀ x ∈ some q, 0 ≤ x := by
  intro x hx
  rw [Option.mem_def] at hx
  injection hx with h2
  exact h2 ▸ h

/-- An absent fee component satisfies the nonnegativity validator. -/
theorem forallFee_none : ∀ x ∈ (none : Option Rat), 0 ≤ x := by
  intro x hx
  exact absurd hx (Option.not_mem_none x)

/-- A successful cost estimation replaces the stored row by the cost merge
performed by the handler. -/
theorem sendCost_find (db : DB) (admin : User) (id : Nat)
    (pf bf sf cf tot : Option Rat) (deadline : Option Nat) (now : Nat) (app : Application)
    (hrole : admin.role = "admin")
    (hfees : (∀ x ∈ pf, 0 ≤ x) ∧ (∀ x ∈ bf, 0 ≤ x) ∧ (∀ x ∈ sf, 0 ≤ x) ∧
             (∀ x ∈ cf, 0 ≤ x) ∧ (∀ x ∈ tot, 0 ≤ x))
    (happ : findApplication db id = some app) (hst : app.status ≠ "cost_provided") :
    (sendCostEstimation db admin id pf bf sf cf tot deadline now).2 = .ok ()
    ∧ findApplication (sendCostEstimation db admin id pf bf sf cf tot deadline now).1 id
      = some { app with
          status := "cost_provided"
          processingFee := pf.getD 120
          biometricsFee := bf.getD 50
          serviceFee := sf.getD 30
          courierFee := cf.getD 25
          totalCost := tot.getD 225
          paymentDeadline := some (deadline.getD (now + 3 * 24 * 60 * 60 * 1000))
          costProvidedAt := some now } := by
  unfold sendCostEstimation
  rw [if_neg (not_not_intro hrole), if_neg (not_not_intro hfees), happ]
  dsimp only
  rw [if_neg hst]
  dsimp only
  refine ⟨rfl, ?_⟩
  rw [findApplication_pushNotification,
    findApplication_setApplication db id
      (fun a => { a with
        status := "cost_provided"
        processingFee := pf.getD 120
        biometricsFee := bf.getD 50
        serviceFee := sf.getD 30
        courierFee := cf.getD 25
        totalCost := tot.getD 225
        paymentDeadline := some (deadline.getD (now + 3 * 24 * 60 * 60 * 1000))
        costProvidedAt := some now }) (fun a => rfl), happ]
  rfl

/-- Claim C4: a successful cost-estimation call stores the caller-supplied
`total` verbatim as `totalCost` (pass-through, never recomputed from the
components), stores the four supplied fee components (with documented
defaults 120/50/30/25 and total 225 when absent), defaults the payment
deadline to now + 3 days, stamps `costProvidedAt = now` and sets the status
to `cost_provided`. -/
theorem C4_cost_passthrough (db : DB) (admin : User) (id : Nat)
    (pf bf sf cf tot : Option Rat) (deadline : Option Nat) (now : Nat) (app : Application)
    (hrole : admin.role = "admin")
    (hfees : (∀ x ∈ pf, 0 ≤ x) ∧ (∀ x ∈ bf, 0 ≤ x) ∧ (∀ x ∈ sf, 0 ≤ x) ∧
             (∀ x ∈ cf, 0 ≤ x) ∧ (∀ x ∈ tot, 0 ≤ x))
    (happ : findApplication db id = some app) (hst : app.status ≠ "cost_provided") :
    (sendCostEstimation db admin id pf bf sf cf tot deadline now).2 = .ok ()
    ∧ ∃ app2,
      findApplication (sendCostEstimation db admin id pf bf sf cf tot deadline now).1 id = some app2
      ∧ app2.totalCost = tot.getD 225
      ∧ app2.processingFee = pf.getD 120
      ∧ app2.biometricsFee = bf.getD 50
      ∧ app2.serviceFee = sf.getD 30
      ∧ app2.courierFee = cf.getD 25
      ∧ app2.paymentDeadline = some (deadline.getD (now + 3 * 24 * 60 * 60 * 1000))
      ∧ app2.costProvidedAt = some now
      ∧ app2.status = "cost_provided" := by
  obtain ⟨hok, hfind⟩ :=
    sendCost_find db admin id pf bf sf cf tot deadline now app hrole hfees happ hst
  exact ⟨hok, _, hfind, rfl, rfl, rfl, rfl, rfl, rfl, rfl, rfl⟩

/-- Witness for C4: supplying components 1, 2, 3, 4 with total 999 stores a
`totalCost` of 999 — which differs from the component sum 10, so the total is
a pass-through, not a recomputation. -/
theorem C4_witness :
    ((sendCostEstimation sampleDB adminUser 3 (some 1) (some 2) (some 3) (some 4) (some 999)
        none 10).2 = .ok ()
    ∧ ∃ app2,
      findApplication (sendCostEstimation sampleDB adminUser 3 (some 1) (some 2) (some 3) (some 4)
          (some 999) none 10).1 3 = some app2
      ∧ app2.totalCost = (some (999 : Rat)).getD 225
      ∧ app2.processingFee = (some (1 : Rat)).getD 120
      ∧ app2.biometricsFee = (some (2 : Rat)).getD 50
      ∧ app2.serviceFee = (some (3 : Rat)).getD 30
      ∧ app2.courierFee = (some (4 : Rat)).getD 25
      ∧ app2.paymentDeadline = some ((none : Option Nat).getD (10 + 3 * 24 * 60 * 60 * 1000))
      ∧ app2.costProvidedAt = some 10
      ∧ app2.status = "cost_provided")
    ∧ (999 : Rat) ≠ 1 + 2 + 3 + 4 := by
  refine ⟨?_, by norm_num⟩
  exact C4_cost_passthrough sampleDB adminUser 3 (some 1) (some 2) (some 3) (some 4) (some 999)
    none 10 submittedApp rfl
    ⟨forallFee_some (by norm_num), forallFee_some (by norm_num), forallFee_some (by norm_num),
      forallFee_some (by norm_num), forallFee_some (by norm_num)⟩
    rfl (by decide)

/-- Claim C5: after a successful cost estimation the application's status is
`cost_provided`, so a second call — whatever its parameters — returns the 400
conflict error and leaves the store exactly as the first call left it: fee
fields, deadline, `costProvidedAt`, status and notifications unchanged. -/
theorem C5_cost_conflict (db : DB) (admin admin2 : User) (id : Nat)
    (pf bf sf cf tot pf2 bf2 sf2 cf2 tot2 : Option Rat) (deadline deadline2 : Option Nat)
    (now now2 : Nat) (app : Application)
    (hrole : admin.role = "admin") (hrole2 : admin2.role = "admin")
    (hfees : (∀ x ∈ pf, 0 ≤ x) ∧ (∀ x ∈ bf, 0 ≤ x) ∧ (∀ x ∈ sf, 0 ≤ x) ∧
             (∀ x ∈ cf, 0 ≤ x) ∧ (∀ x ∈ tot, 0 ≤ x))
    (hfees2 : (∀ x ∈ pf2, 0 ≤ x) ∧ (∀ x ∈ bf2, 0 ≤ x) ∧ (∀ x ∈ sf2, 0 ≤ x) ∧
              (∀ x ∈ cf2, 0 ≤ x) ∧ (∀ x ∈ tot2, 0 ≤ x))
    (happ : findApplication db id = some app) (hst : app.status ≠ "cost_provided") :
    sendCostEstimation (sendCostEstimation db admin id pf bf sf cf tot deadline now).1 admin2 id
        pf2 bf2 sf2 cf2 tot2 deadline2 now2
      = ((sendCostEstimation db admin id pf bf sf cf tot deadline now).1,
        .error { message := "Cost estimation has already been sent for this application",
                 statusCode := 400 }) := by
  obtain ⟨-, hfind⟩ :=
    sendCost_find db admin id pf bf sf cf tot deadline now app hrole hfees happ hst
  set r1 := (sendCostEstimation db admin id pf bf sf cf tot deadline now).1 with hr1
  unfold sendCostEstimation
  rw [if_neg (not_not_intro hrole2), if_neg (not_not_intro hfees2), hfind]
  dsimp only
  rw [if_pos rfl]

/-- Witness for C5: on the fixture store the first cost estimation for the
submitted application succeeds, and an immediate second call returns the 400
conflict with the store unchanged. -/
theorem C5_witness :
    sendCostEstimation (sendCostEstimation sampleDB adminUser 3 (some 1) (some 2) (some 3) (some 4)
        (some 999) none 10).1 adminUser 3 none none none none none none 20
      = ((sendCostEstimation sampleDB adminUser 3 (some 1) (some 2) (some 3) (some 4) (some 999)
          none 10).1,
        .error { message := "Cost estimation has already been sent for this application",
                 statusCode := 400 }) := by
  exact C5_cost_conflict sampleDB adminUser adminUser 3 (some 1) (some 2) (some 3) (some 4)
    (some 999) none none none none none none none 10 20 submittedApp rfl rfl
    ⟨forallFee_some (by norm_num), forallFee_some (by norm_num), forallFee_some (by norm_num),
      forallFee_some (by norm_num), forallFee_some (by norm_num)⟩
    ⟨forallFee_none, forallFee_none, forallFee_none, forallFee_none, forallFee_none⟩
    rfl (by decide)

/-- Claim C8: updating a biometric appointment to `completed` always sets the
linked application's status to `biometrics_completed` (stamping
`completedBy`/`completedAt` when the appointment was not already completed),
updating it to `cancelled` always sets the linked application to
`documents_requested`, and scheduling an appointment for an application that
already has one returns the 400 conflict with the store unchanged. -/
theorem C8_biometrics_cascade (db : DB) (staff : User) (apptId : Nat)
    (notes : Option String) (now : Nat) (appt : BiometricAppointment) (appId : Nat)
    (app : Application)
    (hrole : staff.role = "admin" ∨ staff.role = "officer")
    (hnotes : (notes.getD "").length ≤ 500)
    (hfind : findAppointment db apptId = some appt)
    (hlink : appt.applicationId = some appId)
    (happ : findApplication db appId = some app) :
    (∃ app2 appt2,
      findApplication (updateBiometricStatus db staff apptId "completed" notes now).1 appId
        = some app2
      ∧ app2.status = "biometrics_completed"
      ∧ findAppointment (updateBiometricStatus db staff apptId "completed" notes now).1 apptId
        = some appt2
      ∧ (appt.status ≠ "completed" →
          appt2.completedBy = some staff.id ∧ appt2.completedAt = some now))
    ∧ (∃ app2,
      findApplication (updateBiometricStatus db staff apptId "cancelled" notes now).1 appId
        = some app2
      ∧ app2.status = "documents_requested")
    ∧ (∀ newId date loc notes2 b, loc ≠ "" → (notes2.getD "").length ≤ 500 →
      findAppointmentByApplication db appId = some b →
      scheduleBiometricAppointment db staff newId appId date loc notes2
        = (db, .error { message := "Biometric appointment already scheduled for this application",
                        statusCode := 400 })) := by
  have hrneg : ¬(staff.role ≠ "admin" ∧ staff.role ≠ "officer") := by
    rintro ⟨ha, ho⟩
    rcases hrole with h | h
    · exact ha h
    · exact ho h
  refine ⟨?_, ?_, ?_⟩
  · unfold updateBiometricStatus
    rw [if_neg hrneg, if_neg (by
        rintro (hmem | hlen)
        · exact hmem (by decide)
        · omega), hfind]
    dsimp only
    rw [hlink]
    dsimp only
    rw [happ]
    dsimp only
    rw [if_pos rfl]
    refine ⟨?app2, ?appt2, ?hfa, ?hst, ?hfb, ?hstamp⟩
    case app2 => exact { app with status := "biometrics_completed" }
    case appt2 => exact biometricUpdateData appt "completed" notes appt.status staff.id now
    case hfa =>
      rw [findApplication_setApplication]
      · rw [findApplication_setAppointment, happ]
        rfl
      · intro a
        rfl
    case hst => rfl
    case hfb =>
      rw [findAppointment_setApplication, findAppointment_setAppointment]
      · rw [hfind]
        rfl
      · intro b
        rfl
    case hstamp =>
      intro h
      constructor
      · simp [biometricUpdateData, h]
      · simp [biometricUpdateData, h]
  · unfold updateBiometricStatus
    rw [if_neg hrneg, if_neg (by
        rintro (hmem | hlen)
        · exact hmem (by decide)
        · omega), hfind]
    dsimp only
    rw [hlink]
    dsimp only
    rw [happ]
    dsimp only
    rw [if_neg (by decide), if_pos rfl]
    refine ⟨{ app with status := "documents_requested" }, ?_, rfl⟩
    rw [findApplication_setApplication]
    · rw [findApplication_setAppointment, happ]
      rfl
    · intro a
      rfl
  · intro newId date loc notes2 b hloc hn2 hbap
    unfold scheduleBiometricAppointment
    rw [if_neg hrneg, if_neg (by
        rintro (h | h)
        · exact hloc h
        · omega), happ]
    dsimp only
    rw [hbap]

/-- Witness for C8: completing the scheduled fixture appointment cascades
application 4 to `biometrics_completed` with stamps, cancelling it cascades to
`documents_requested`, and scheduling a second appointment for application 4
is the 400 conflict. -/
theorem C8_witness :
    (∃ app2 appt2,
      findApplication (updateBiometricStatus sampleDB officerUser 1 "completed" none 60).1 4
        = some app2
      ∧ app2.status = "biometrics_completed"
      ∧ findAppointment (updateBiometricStatus sampleDB officerUser 1 "completed" none 60).1 1
        = some appt2
      ∧ (sampleAppointment.status ≠ "completed" →
          appt2.completedBy = some officerUser.id ∧ appt2.completedAt = some 60))
    ∧ (∃ app2,
      findApplication (updateBiometricStatus sampleDB officerUser 1 "cancelled" none 60).1 4
        = some app2
      ∧ app2.status = "documents_requested")
    ∧ scheduleBiometricAppointment sampleDB officerUser 2 4 600 "Dubai Main Center" none
      = (sampleDB, .error { message := "Biometric appointment already scheduled for this application",
                            statusCode := 400 }) := by
  obtain ⟨h1, h2, h3⟩ := C8_biometrics_cascade sampleDB officerUser 1 none 60 sampleAppointment 4
    bioApp (Or.inr rfl) (by decide) rfl rfl rfl
  exact ⟨h1, h2, h3 2 600 "Dubai Main Center" none sampleAppointment (by decide) (by decide) rfl⟩

/-- Claim C9: creating a payment for an application that already has one
returns the 400 conflict error with the store unchanged; with no prior
payment and an application owned by the caller, exactly one payment row is
appended, with status `pending`. -/
theorem C9_payment_unique (db : DB) (callerId newId applicationId : Nat) (amount : Rat)
    (currency paymentMethod : String) (description transactionId : Option String)
    (app : Application)
    (hval : 0 ≤ amount ∧ currency ∈ PAYMENT_CURRENCIES ∧ paymentMethod ∈ PAYMENT_METHODS ∧
            (description.getD "").length ≤ 500)
    (happ : db.applications.find? (fun a => a.id == applicationId && a.userId == callerId)
      = some app) :
    (∀ p, findPaymentByApplication db applicationId = some p →
      createPayment db callerId newId applicationId amount currency paymentMethod description
          transactionId
        = (db, .error { message := "Payment already exists for this application",
                        statusCode := 400 }))
    ∧ (findPaymentByApplication db applicationId = none →
      ∃ pay,
        createPayment db callerId newId applicationId amount currency paymentMethod description
            transactionId
          = ({ db with payments := db.payments ++ [pay] }, .ok ())
        ∧ pay.status = "pending" ∧ pay.applicationId = some applicationId
        ∧ pay.userId = callerId) := by
  constructor
  · intro p hp
    unfold createPayment
    rw [if_neg (not_not_intro hval), happ]
    dsimp only
    rw [hp]
  · intro hnone
    unfold createPayment
    rw [if_neg (not_not_intro hval), happ]
    dsimp only
    rw [hnone]
    dsimp only
    exact ⟨_, rfl, rfl, rfl, rfl⟩

/-- Witness for C9: a second payment for application 6 (which has one) is the
400 conflict; a first payment for application 2 appends one pending row. -/
theorem C9_witness :
    createPayment sampleDB 10 2 6 225 "USD" "credit_card" none none
      = (sampleDB, .error { message := "Payment already exists for this application",
                            statusCode := 400 })
    ∧ ∃ pay,
      createPayment sampleDB 10 2 2 225 "USD" "credit_card" none none
        = ({ sampleDB with payments := sampleDB.payments ++ [pay] }, .ok ())
      ∧ pay.status = "pending" ∧ pay.applicationId = some 2 ∧ pay.userId = 10 := by
  exact ⟨(C9_payment_unique sampleDB 10 2 6 225 "USD" "credit_card" none none paidApp
      (by decide) rfl).1 samplePayment rfl,
    (C9_payment_unique sampleDB 10 2 2 225 "USD" "credit_card" none none draftApp
      (by decide) rfl).2 rfl⟩

/-- Claim C10: the authentication guard's deactivated-account rejection fires
exactly when the loaded user's `isActive` is the stored boolean `false`; a
user whose `isActive` attribute is absent is treated as active and passes the
guard. -/
theorem C10_isActive_gate (u : User) :
    (protectLoadedUser (some u)
        = .error { message := "User account is deactivated", statusCode := 401 }
      ↔ u.isActive = some false)
    ∧ (u.isActive = none → protectLoadedUser (some u) = .ok u) := by
  obtain ⟨i, r, a, f⟩ := u
  cases a with
  | none => simp [protectLoadedUser]
  | some b => cases b <;> simp [protectLoadedUser]

/-- Witness for C10: the deactivated fixture admin is rejected with 401, and
the fixture user with an absent `isActive` passes the guard. -/
theorem C10_witness :
    protectLoadedUser (some inactiveAdmin)
      = .error { message := "User account is deactivated", statusCode := 401 }
    ∧ protectLoadedUser (some undefActiveUser) = .ok undefActiveUser := by
  exact ⟨(C10_isActive_gate inactiveAdmin).1.mpr rfl, (C10_isActive_gate undefActiveUser).2 rfl⟩

end Arraji
